import Mathlib

/-!
Shallow embedding of the KisanMind ML inference heuristics
(services/ml-inference/app.py).

Modelling conventions:
- Python floats are modelled as exact rationals.
- Python `round(x, n)` is modelled as round-half-up on rationals
  (`roundTo`); the properties checked here are insensitive to the
  direction of ties.
- `np.random.RandomState(seed)` is modelled as an abstract stream
  `g : ℕ → ℚ` of unit uniform draws, consumed in source order;
  `rng.uniform(lo, hi)` is `lo + (hi - lo) * u` for the next unit
  draw `u`.  The seed determines the stream, so two calls with the
  same seed see identical streams.
-/

/-- Image summary statistics (class `ImageFeatures.__init__`): per-channel
mean and standard deviation of the decoded RGB image. -/
structure ImageFeatures where
  mean_r : ℚ
  mean_g : ℚ
  mean_b : ℚ
  std_r : ℚ
  std_g : ℚ
  std_b : ℚ
deriving DecidableEq

/-- `self.brightness = (mean_r + mean_g + mean_b) / 3.0` -/
def ImageFeatures.brightness (f : ImageFeatures) : ℚ :=
  (f.mean_r + f.mean_g + f.mean_b) / 3

/-- `self.redness = mean_r / max(brightness, 1)` -/
def ImageFeatures.redness (f : ImageFeatures) : ℚ :=
  f.mean_r / max f.brightness 1

/-- `self.greenness = mean_g / max(brightness, 1)` -/
def ImageFeatures.greenness (f : ImageFeatures) : ℚ :=
  f.mean_g / max f.brightness 1

/-- `self.blueness = mean_b / max(brightness, 1)` -/
def ImageFeatures.blueness (f : ImageFeatures) : ℚ :=
  f.mean_b / max f.brightness 1

/-- `self.texture_variance = (std_r + std_g + std_b) / 3.0` -/
def ImageFeatures.texture_variance (f : ImageFeatures) : ℚ :=
  (f.std_r + f.std_g + f.std_b) / 3

/-- `self.saturation = (max_channel - min_channel) / max(max_channel, 1)` -/
def ImageFeatures.saturation (f : ImageFeatures) : ℚ :=
  (max (max f.mean_r f.mean_g) f.mean_b - min (min f.mean_r f.mean_g) f.mean_b)
    / max (max (max f.mean_r f.mean_g) f.mean_b) 1

/-- Features of a solid-colour image: channel means are the colour,
channel standard deviations are 0. -/
def solidFeatures (r g b : ℚ) : ImageFeatures :=
  { mean_r := r, mean_g := g, mean_b := b, std_r := 0, std_g := 0, std_b := 0 }

/-- `rng.uniform(lo, hi)` applied to a unit draw `u`. -/
def uniform (lo hi u : ℚ) : ℚ := lo + (hi - lo) * u

/-- Python `round(x, n)` (modelled round-half-up). -/
def roundTo (n : ℕ) (x : ℚ) : ℚ := ((round (x * 10 ^ n) : ℤ) : ℚ) / 10 ^ n

/-- One entry of the `SOIL_TYPES` table. -/
structure SoilProfile where
  type_name : String
  description : String
  suitable_crops : List String
  ph_lo : ℚ
  ph_hi : ℚ
  oc_lo : ℚ
  oc_hi : ℚ
  drainage : String
  india_regions : List String
deriving DecidableEq

/-- Entry 0 of `SOIL_TYPES`. -/
def blackCottonProfile : SoilProfile :=
  { type_name := "Black Cotton Soil (Vertisol)"
  , description := "Deep black soil rich in clay, excellent moisture retention"
  , suitable_crops := ["Cotton", "Soybean", "Sorghum", "Wheat", "Chickpea", "Sunflower"]
  , ph_lo := 7.5, ph_hi := 8.5, oc_lo := 0.4, oc_hi := 0.8
  , drainage := "poor"
  , india_regions := ["Vidarbha", "Marathwada", "Madhya Pradesh", "Gujarat"] }

/-- Entry 1 of `SOIL_TYPES`. -/
def redSoilProfile : SoilProfile :=
  { type_name := "Red Soil (Alfisol)"
  , description := "Iron-rich reddish soil with moderate fertility"
  , suitable_crops := ["Groundnut", "Millets", "Pulses", "Tobacco", "Potato", "Rice"]
  , ph_lo := 5.5, ph_hi := 7.0, oc_lo := 0.3, oc_hi := 0.6
  , drainage := "moderate"
  , india_regions := ["Tamil Nadu", "Karnataka", "Andhra Pradesh", "Odisha"] }

/-- Entry 2 of `SOIL_TYPES`. -/
def alluvialProfile : SoilProfile :=
  { type_name := "Alluvial Soil"
  , description := "Fertile, well-drained soil deposited by rivers"
  , suitable_crops := ["Rice", "Wheat", "Sugarcane", "Maize", "Vegetables", "Jute"]
  , ph_lo := 6.0, ph_hi := 7.5, oc_lo := 0.5, oc_hi := 1.0
  , drainage := "good"
  , india_regions := ["Punjab", "Uttar Pradesh", "Bihar", "West Bengal"] }

/-- Entry 3 of `SOIL_TYPES`. -/
def lateriteProfile : SoilProfile :=
  { type_name := "Laterite Soil"
  , description := "Leached acidic soil, common in high-rainfall areas"
  , suitable_crops := ["Tea", "Coffee", "Rubber", "Cashew", "Coconut", "Arecanut"]
  , ph_lo := 4.5, ph_hi := 6.0, oc_lo := 0.2, oc_hi := 0.5
  , drainage := "excessive"
  , india_regions := ["Kerala", "Konkan", "Goa", "Meghalaya"] }

/-- Entry 4 of `SOIL_TYPES`. -/
def sandyLoamProfile : SoilProfile :=
  { type_name := "Sandy Loam"
  , description := "Light-textured soil with good drainage, low water retention"
  , suitable_crops := ["Bajra", "Jowar", "Guar", "Mustard", "Cumin", "Groundnut"]
  , ph_lo := 6.5, ph_hi := 8.0, oc_lo := 0.2, oc_hi := 0.4
  , drainage := "excessive"
  , india_regions := ["Rajasthan", "Haryana", "Gujarat (Kutch)"] }

/-- The static `SOIL_TYPES` reference table. -/
def SOIL_TYPES : List SoilProfile :=
  [blackCottonProfile, redSoilProfile, alluvialProfile, lateriteProfile, sandyLoamProfile]

/-- `black_score` in `classify_soil`. -/
def black_score (f : ImageFeatures) : ℚ :=
  (1 - f.brightness / 255) * 2 + (1 - f.saturation) * 1
    + min (f.texture_variance / 60) 1 * 0.5

/-- `red_score` in `classify_soil`. -/
def red_score (f : ImageFeatures) : ℚ :=
  f.redness * 2 + (1 - |f.brightness - 120| / 120) * 1 - f.greenness * 0.5

/-- `alluvial_score` in `classify_soil`. -/
def alluvial_score (f : ImageFeatures) : ℚ :=
  (1 - |f.brightness - 140| / 140) * 1.5 + (1 - f.saturation) * 0.5
    + (1 - |f.redness - f.greenness|) * 1

/-- `laterite_score` in `classify_soil`. -/
def laterite_score (f : ImageFeatures) : ℚ :=
  f.redness * 1.5 + f.saturation * 1 + min (f.texture_variance / 70) 1 * 1
    - f.greenness * 0.3

/-- `sandy_score` in `classify_soil`. -/
def sandy_score (f : ImageFeatures) : ℚ :=
  f.brightness / 255 * 2 + (1 - min (f.texture_variance / 40) 1) * 1
    + f.saturation * 0.3

/-- `scores = [s + n for s, n in zip(scores, rng.uniform(-0.2, 0.2, size=5))]`:
the five per-candidate noise draws occupy stream positions 0 to 4. -/
def noisyScores (f : ImageFeatures) (g : ℕ → ℚ) : List ℚ :=
  [ black_score f + uniform (-0.2) 0.2 (g 0)
  , red_score f + uniform (-0.2) 0.2 (g 1)
  , alluvial_score f + uniform (-0.2) 0.2 (g 2)
  , laterite_score f + uniform (-0.2) 0.2 (g 3)
  , sandy_score f + uniform (-0.2) 0.2 (g 4) ]

/-- Helper for `np.argmax`: tracks the index and value of the running best,
keeping the earlier index on ties. -/
def argmaxAux : List ℚ → ℕ → ℕ → ℚ → ℕ
  | [], _, bi, _ => bi
  | x :: xs, i, bi, bv =>
      if x > bv then argmaxAux xs (i + 1) i x else argmaxAux xs (i + 1) bi bv

/-- `int(np.argmax(scores))`: index of the first maximal element. -/
def argmax : List ℚ → ℕ
  | [] => 0
  | x :: xs => argmaxAux xs 1 0 x

/-- Fallback profile for the (unreachable) out-of-range index case of
`SOIL_TYPES[best_idx]`. -/
def defaultProfile : SoilProfile :=
  { type_name := "", description := "", suitable_crops := []
  , ph_lo := 0, ph_hi := 0, oc_lo := 0, oc_hi := 0
  , drainage := "", india_regions := [] }

/-- Texture classification block of `classify_soil`. -/
def textureOf (f : ImageFeatures) : String :=
  if f.texture_variance > 50 then "clayey"
  else if f.texture_variance > 30 then "loamy"
  else "sandy"

/-- `nutrients` sub-record of the soil result. -/
structure Nutrients where
  nitrogen_kg_ha : ℚ
  phosphorus_kg_ha : ℚ
  potassium_kg_ha : ℚ
deriving DecidableEq

/-- `image_analysis` sub-record shared by both results. -/
structure ImageAnalysisOut where
  brightness : ℚ
  redness_index : ℚ
  greenness_index : ℚ
  texture_variance : ℚ
  saturation : ℚ
deriving DecidableEq

/-- The rounded `image_analysis` block. -/
def imageAnalysisOf (f : ImageFeatures) : ImageAnalysisOut :=
  { brightness := roundTo 1 f.brightness
  , redness_index := roundTo 3 f.redness
  , greenness_index := roundTo 3 f.greenness
  , texture_variance := roundTo 1 f.texture_variance
  , saturation := roundTo 3 f.saturation }

/-- The conditional-append recommendation block of `classify_soil`
(lines 217-231 of app.py), in source order. -/
def soil_recommendations (ph oc n p : ℚ) (drainage : String) : List String :=
  (if ph > 7.5 then ["Apply gypsum (2-3 tonnes/ha) to reduce alkalinity"] else []) ++
  (if ph < 5.5 then ["Apply agricultural lime (1-2 tonnes/ha) to correct acidity"] else []) ++
  (if oc < 0.5 then ["Increase organic matter with FYM (10-15 tonnes/ha) or green manure"] else []) ++
  (if n < 200 then ["Apply nitrogen fertilizer (urea 100-150 kg/ha) in split doses"] else []) ++
  (if p < 15 then ["Apply phosphorus (DAP 50-100 kg/ha) at sowing time"] else []) ++
  (if drainage == "poor" then ["Create raised beds or ridges to improve drainage during monsoon"] else []) ++
  (if drainage == "excessive" then ["Apply mulch (5-7 cm) to conserve soil moisture"] else [])

/-- The dict returned by `classify_soil`. -/
structure SoilResult where
  soil_type : String
  soil_description : String
  confidence : ℚ
  texture : String
  estimated_ph : ℚ
  organic_carbon_pct : ℚ
  drainage : String
  nutrients : Nutrients
  suitable_crops : List String
  common_regions : List String
  recommendations : List String
  image_analysis : ImageAnalysisOut
deriving DecidableEq

/-- `best_idx = int(np.argmax(scores))`. -/
def soil_index (f : ImageFeatures) (g : ℕ → ℚ) : ℕ := argmax (noisyScores f g)

/-- `soil = SOIL_TYPES[best_idx]`. -/
def soil_profile (f : ImageFeatures) (g : ℕ → ℚ) : SoilProfile :=
  SOIL_TYPES.getD (soil_index f g) defaultProfile

/-- `margin = sorted_scores[0] - sorted_scores[1] if len(sorted_scores) > 1 else 1.0`
with `sorted_scores = sorted(scores, reverse=True)`. -/
def soil_margin (f : ImageFeatures) (g : ℕ → ℚ) : ℚ :=
  let sorted_scores := (noisyScores f g).insertionSort (fun a b => a ≥ b)
  if 1 < sorted_scores.length then sorted_scores.getD 0 0 - sorted_scores.getD 1 0 else 1

/-- `confidence = max(0.60, min(0.96, round(min(0.65 + margin*0.12, 0.96)
+ rng.uniform(-0.03, 0.03), 2)))`; the perturbation draw is stream
position 5, right after the five score-noise draws. -/
def soil_confidence (f : ImageFeatures) (g : ℕ → ℚ) : ℚ :=
  max 0.60 (min 0.96
    (roundTo 2 (min (0.65 + soil_margin f g * 0.12) 0.96 + uniform (-0.03) 0.03 (g 5))))

/-- `classify_soil(features, seed)`.  The seeded generator is passed as its
draw stream `g`; stream positions in consumption order are: per-candidate
score noise 0-4, confidence perturbation 5, pH 6, organic carbon 7,
nitrogen 8, phosphorus 9, potassium 10. -/
def classify_soil (f : ImageFeatures) (g : ℕ → ℚ) : SoilResult :=
  let soil := soil_profile f g
  let ph := roundTo 1 (uniform soil.ph_lo soil.ph_hi (g 6))
  let organic_carbon := roundTo 2 (uniform soil.oc_lo soil.oc_hi (g 7))
  let nitrogen := roundTo 0 (uniform 120 350 (g 8))
  let phosphorus := roundTo 0 (uniform 8 45 (g 9))
  let potassium := roundTo 0 (uniform 100 400 (g 10))
  { soil_type := soil.type_name
  , soil_description := soil.description
  , confidence := soil_confidence f g
  , texture := textureOf f
  , estimated_ph := ph
  , organic_carbon_pct := organic_carbon
  , drainage := soil.drainage
  , nutrients :=
      { nitrogen_kg_ha := nitrogen
      , phosphorus_kg_ha := phosphorus
      , potassium_kg_ha := potassium }
  , suitable_crops := soil.suitable_crops
  , common_regions := soil.india_regions
  , recommendations := soil_recommendations ph organic_carbon nitrogen phosphorus soil.drainage
  , image_analysis := imageAnalysisOf f }

/-- One detected-disease entry of the crop result. -/
structure DiseaseEntry where
  disease : String
  confidence : ℚ
  severity : String
  affected_area_pct : ℚ
  treatment : String
  prevention : String
deriving DecidableEq

/-- One disease trigger of `analyze_crop_health`: the hard-coded threshold
condition, the confidence base and noise spread, the affected-area range,
and the static strings taken from `CROP_DISEASES`. -/
structure TriggerSpec where
  name : String
  severity : String
  conf_base : ℚ
  conf_spread : ℚ
  area_lo : ℚ
  area_hi : ℚ
  treatment : String
  prevention : String
  cond : ImageFeatures → Bool

/-- The Leaf Blight trigger (line 338 of app.py). -/
def blightTrigger : TriggerSpec :=
  { name := "Leaf Blight", severity := "moderate"
  , conf_base := 0.72, conf_spread := 0.18, area_lo := 10, area_hi := 40
  , treatment := "Apply Mancozeb 75% WP (2g/L) or Copper Oxychloride spray"
  , prevention := "Use disease-resistant varieties, ensure proper spacing for air circulation"
  , cond := fun f => decide (f.redness > 0.38 ∧ f.greenness < 0.4 ∧ f.brightness < 160) }

/-- The Powdery Mildew trigger (line 350 of app.py). -/
def mildewTrigger : TriggerSpec :=
  { name := "Powdery Mildew", severity := "moderate"
  , conf_base := 0.68, conf_spread := 0.20, area_lo := 5, area_hi := 25
  , treatment := "Spray Karathane (0.05%) or Sulfur dust (25 kg/ha)"
  , prevention := "Avoid excessive nitrogen, maintain proper plant spacing"
  , cond := fun f => decide (f.brightness > 170 ∧ f.saturation < 0.3) }

/-- The Rust trigger (line 362 of app.py). -/
def rustTrigger : TriggerSpec :=
  { name := "Rust", severity := "high"
  , conf_base := 0.75, conf_spread := 0.17, area_lo := 15, area_hi := 50
  , treatment := "Apply Propiconazole 25 EC (1ml/L) immediately"
  , prevention := "Plant resistant varieties, remove crop residue after harvest"
  , cond := fun f =>
      decide (f.redness > 0.42 ∧ f.greenness < 0.35 ∧ 100 < f.brightness ∧ f.brightness < 180) }

/-- The Bacterial Wilt trigger (line 374 of app.py). -/
def wiltTrigger : TriggerSpec :=
  { name := "Bacterial Wilt", severity := "high"
  , conf_base := 0.65, conf_spread := 0.20, area_lo := 20, area_hi := 60
  , treatment := "Remove infected plants, apply Streptocycline (0.01%) soil drench"
  , prevention := "Crop rotation with non-host crops, avoid waterlogging"
  , cond := fun f => decide (f.saturation < 0.25 ∧ f.brightness < 140 ∧ f.greenness < 0.38) }

/-- The Aphid Infestation trigger (line 386 of app.py). -/
def aphidTrigger : TriggerSpec :=
  { name := "Aphid Infestation", severity := "low"
  , conf_base := 0.60, conf_spread := 0.22, area_lo := 5, area_hi := 20
  , treatment := "Spray Imidacloprid 17.8 SL (0.3ml/L) or neem oil (5ml/L)"
  , prevention := "Release natural predators (ladybugs), use yellow sticky traps"
  , cond := fun f => decide (f.texture_variance > 45 ∧ f.greenness > 0.35) }

/-- The five disease triggers of `analyze_crop_health`, in evaluation order
(blight, mildew, rust, wilt, aphid). -/
def CROP_TRIGGERS : List TriggerSpec :=
  [blightTrigger, mildewTrigger, rustTrigger, wiltTrigger, aphidTrigger]

/-- Sequential trigger evaluation: a fired trigger consumes two stream
draws (confidence at `pos`, affected area at `pos + 1`); a trigger that
does not fire consumes none, exactly as the `if` bodies of the source. -/
def detectAux (f : ImageFeatures) (g : ℕ → ℚ) : List TriggerSpec → ℕ → List DiseaseEntry
  | [], _ => []
  | t :: ts, pos =>
      if t.cond f then
        { disease := t.name
        , confidence := roundTo 2 (t.conf_base + uniform 0 t.conf_spread (g pos))
        , severity := t.severity
        , affected_area_pct := roundTo 0 (uniform t.area_lo t.area_hi (g (pos + 1)))
        , treatment := t.treatment
        , prevention := t.prevention } :: detectAux f g ts (pos + 2)
      else detectAux f g ts pos

/-- The overall-assessment decision tree of `analyze_crop_health`. -/
def assessmentOf (health_score : ℚ) (ds : List DiseaseEntry) : String :=
  if ds.isEmpty then
    if health_score ≥ 0.7 then
      "Crop appears healthy with no visible disease symptoms"
    else
      "Crop shows some stress signs but no specific disease detected. Monitor closely."
  else
    let high_severity := ds.filter (fun d => d.severity == "high")
    if high_severity.isEmpty then
      toString ds.length ++ " issue(s) detected. Treatment recommended within 1-2 weeks."
    else
      "URGENT: " ++ toString high_severity.length ++ " high-severity issue(s) detected. Immediate treatment recommended."

/-- The growth-stage decision tree of `analyze_crop_health`. -/
def growthStageOf (f : ImageFeatures) : String :=
  if f.greenness > 0.42 ∧ f.texture_variance > 35 then "Vegetative (active growth)"
  else if f.greenness > 0.38 then "Flowering/Reproductive"
  else if f.brightness > 160 ∧ f.saturation < 0.25 then "Maturity (ready for harvest)"
  else "Early/Seedling"

/-- `_crop_recommendations(health_score, diseases, features)`. -/
def crop_recommendations (health_score : ℚ) (diseases : List DiseaseEntry)
    (f : ImageFeatures) : List String :=
  let recs :=
    (if health_score < 0.5 then
      ["Immediate soil testing recommended to check nutrient deficiencies"] else []) ++
    (if diseases.isEmpty then [] else
      ["Isolate affected plants to prevent spread to healthy ones"] ++
      (if diseases.any (fun d => d.severity == "high") then
        [ "Contact local Krishi Vigyan Kendra (KVK) for expert diagnosis"
        , "Consider crop insurance claim if yield loss exceeds 33%" ] else [])) ++
    (if f.greenness < 0.35 then
      ["Apply foliar nitrogen spray (2% urea) for quick green-up"] else []) ++
    (if f.brightness > 180 then
      ["Increase irrigation frequency - plants may be water-stressed"] else [])
  if recs.isEmpty then
    [ "Continue current management practices"
    , "Monitor weekly for any emerging pest or disease symptoms"
    , "Apply preventive fungicide spray during wet weather periods" ]
  else recs

/-- The dict returned by `analyze_crop_health`. -/
structure CropResult where
  health_score : ℚ
  assessment : String
  growth_stage : String
  detected_diseases : List DiseaseEntry
  disease_count : ℕ
  recommendations : List String
  image_analysis : ImageAnalysisOut
deriving DecidableEq

/-- `health_score = round(max(0.1, min(1.0, base_health + rng.uniform(-0.1, 0.1))), 2)`
with `base_health = 0.5 + (greenness - max(redness, blueness))*0.5
+ (1 - abs(brightness - 130)/200)*0.2 + saturation*0.15`; the noise draw is
stream position 0. -/
def crop_health_score (f : ImageFeatures) (g : ℕ → ℚ) : ℚ :=
  let green_dominance := f.greenness - max f.redness f.blueness
  let base_health := 0.5 + green_dominance * 0.5
    + (1 - |f.brightness - 130| / 200) * 0.2 + f.saturation * 0.15
  roundTo 2 (max 0.1 (min 1.0 (base_health + uniform (-0.1) 0.1 (g 0))))

/-- `analyze_crop_health(features, seed)`.  Stream positions in consumption
order: health-score noise at 0, then two draws per fired trigger starting
at position 1. -/
def analyze_crop_health (f : ImageFeatures) (g : ℕ → ℚ) : CropResult :=
  let health_score := crop_health_score f g
  let detected := detectAux f g CROP_TRIGGERS 1
  { health_score := health_score
  , assessment := assessmentOf health_score detected
  , growth_stage := growthStageOf f
  , detected_diseases := detected
  , disease_count := detected.length
  , recommendations := crop_recommendations health_score detected f
  , image_analysis := imageAnalysisOf f }

/-- Value of a big-endian list of hex digits. -/
def hexVal (ds : List (Fin 16)) : ℕ := ds.foldl (fun a d => 16 * a + d.val) 0

/-- `_deterministic_seed(img_bytes) = int(hashlib.md5(img_bytes).hexdigest()[:8], 16)`.
The MD5 digest itself is an external library call (`hashlib`); it is
abstracted as a function `md5hex` from the byte string to its sequence of
hex digits, and the seed is the value of the first 8 of them. -/
def deterministic_seed (md5hex : List ℕ → List (Fin 16)) (b : List ℕ) : ℕ :=
  hexVal ((md5hex b).take 8)

/-- The features of the solid near-black test image RGB (30, 25, 20). -/
def nearBlackFeatures : ImageFeatures := solidFeatures 30 25 20

/-- The features of the solid reddish test image RGB (180, 80, 60). -/
def reddishFeatures : ImageFeatures := solidFeatures 180 80 60

/-- The features of the solid near-white soil test image RGB (220, 210, 180). -/
def brightSoilFeatures : ImageFeatures := solidFeatures 220 210 180

/-- The features of the solid near-white crop test image RGB (230, 230, 225). -/
def nearWhiteFeatures : ImageFeatures := solidFeatures 230 230 225

/-- A concrete draw stream whose pH draw (position 6) gives 6.0, whose
organic-carbon draw (position 7) gives 0.55, and whose remaining draws
are mid-range. -/
def claim3Stream : ℕ → ℚ := fun i => if i = 6 then 1/3 else if i = 7 then 5/6 else 1/2

/-- A concrete draw stream that differs from `claim4StreamB` only at
position 5 (the draw right after the five score-noise draws). -/
def claim4StreamA : ℕ → ℚ := fun i => if i = 5 then 0 else 1/2

/-- A concrete draw stream that differs from `claim4StreamA` only at
position 5. -/
def claim4StreamB : ℕ → ℚ := fun i => if i = 5 then 1/4 else 1/2

/-! Helper lemmas. -/

lemma round_le_int {x : ℚ} {n : ℤ} (h : x ≤ n) : round x ≤ n := by
  rw [round_eq]
  have h2 : x + 1 / 2 < ((n + 1 : ℤ) : ℚ) := by push_cast; linarith
  have h3 := Int.floor_lt.mpr h2
  omega

lemma int_le_round {x : ℚ} {n : ℤ} (h : (n : ℚ) ≤ x) : n ≤ round x := by
  rw [round_eq]
  refine Int.le_floor.mpr ?_
  linarith

lemma roundTo_bounds (lo hi : ℤ) (x : ℚ) (n : ℕ) (h1 : (lo : ℚ) ≤ x * 10 ^ n)
    (h2 : x * 10 ^ n ≤ (hi : ℚ)) :
    (lo : ℚ) / 10 ^ n ≤ roundTo n x ∧ roundTo n x ≤ (hi : ℚ) / 10 ^ n := by
  have a1 : lo ≤ round (x * 10 ^ n) := int_le_round h1
  have a2 : round (x * 10 ^ n) ≤ hi := round_le_int h2
  have b1 : (lo : ℚ) ≤ ((round (x * 10 ^ n) : ℤ) : ℚ) := by exact_mod_cast a1
  have b2 : ((round (x * 10 ^ n) : ℤ) : ℚ) ≤ (hi : ℚ) := by exact_mod_cast a2
  constructor <;> unfold roundTo <;> gcongr

lemma classify_soil_confidence_eq (f : ImageFeatures) (g : ℕ → ℚ) :
    (classify_soil f g).confidence = soil_confidence f g := rfl

lemma classify_soil_soil_type_eq (f : ImageFeatures) (g : ℕ → ℚ) :
    (classify_soil f g).soil_type = (soil_profile f g).type_name := rfl

lemma classify_soil_ph_eq (f : ImageFeatures) (g : ℕ → ℚ) :
    (classify_soil f g).estimated_ph
      = roundTo 1 (uniform (soil_profile f g).ph_lo (soil_profile f g).ph_hi (g 6)) := rfl

lemma classify_soil_oc_eq (f : ImageFeatures) (g : ℕ → ℚ) :
    (classify_soil f g).organic_carbon_pct
      = roundTo 2 (uniform (soil_profile f g).oc_lo (soil_profile f g).oc_hi (g 7)) := rfl

lemma classify_soil_nutrients_eq (f : ImageFeatures) (g : ℕ → ℚ) :
    (classify_soil f g).nutrients
      = { nitrogen_kg_ha := roundTo 0 (uniform 120 350 (g 8))
        , phosphorus_kg_ha := roundTo 0 (uniform 8 45 (g 9))
        , potassium_kg_ha := roundTo 0 (uniform 100 400 (g 10)) } := rfl

lemma classify_soil_texture_eq (f : ImageFeatures) (g : ℕ → ℚ) :
    (classify_soil f g).texture = textureOf f := rfl

lemma classify_soil_recommendations_eq (f : ImageFeatures) (g : ℕ → ℚ) :
    (classify_soil f g).recommendations
      = soil_recommendations
          (roundTo 1 (uniform (soil_profile f g).ph_lo (soil_profile f g).ph_hi (g 6)))
          (roundTo 2 (uniform (soil_profile f g).oc_lo (soil_profile f g).oc_hi (g 7)))
          (roundTo 0 (uniform 120 350 (g 8)))
          (roundTo 0 (uniform 8 45 (g 9)))
          (soil_profile f g).drainage := rfl

lemma crop_health_score_eq (f : ImageFeatures) (g : ℕ → ℚ) :
    (analyze_crop_health f g).health_score = crop_health_score f g := rfl

lemma crop_detected_eq (f : ImageFeatures) (g : ℕ → ℚ) :
    (analyze_crop_health f g).detected_diseases = detectAux f g CROP_TRIGGERS 1 := rfl

lemma crop_recommendations_eq (f : ImageFeatures) (g : ℕ → ℚ) :
    (analyze_crop_health f g).recommendations
      = crop_recommendations (crop_health_score f g) (detectAux f g CROP_TRIGGERS 1) f := rfl

lemma hexVal_foldl_lt (ds : List (Fin 16)) :
    ∀ a : ℕ, ds.foldl (fun a d => 16 * a + d.val) a < (a + 1) * 16 ^ ds.length := by
  induction ds with
  | nil => intro a; simp
  | cons d t ih =>
      intro a
      simp only [List.foldl_cons, List.length_cons]
      have h1 := ih (16 * a + d.val)
      have h2 : (16 * a + d.val + 1) * 16 ^ t.length ≤ (a + 1) * 16 ^ (t.length + 1) := by
        have hd : d.val + 1 ≤ 16 := d.isLt
        have h3 : 16 * a + d.val + 1 ≤ 16 * (a + 1) := by omega
        calc (16 * a + d.val + 1) * 16 ^ t.length
            ≤ (16 * (a + 1)) * 16 ^ t.length := Nat.mul_le_mul_right _ h3
          _ = (a + 1) * 16 ^ (t.length + 1) := by ring
      exact lt_of_lt_of_le h1 h2

lemma hexVal_lt (ds : List (Fin 16)) : hexVal ds < 16 ^ ds.length := by
  have h := hexVal_foldl_lt ds 0
  simpa [hexVal] using h

lemma roundTo2_clamp_bounds (w : ℚ) :
    (0.10 : ℚ) ≤ roundTo 2 (max 0.1 (min 1.0 w))
      ∧ roundTo 2 (max 0.1 (min 1.0 w)) ≤ 1.00 := by
  have hy1 : (0.1 : ℚ) ≤ max 0.1 (min 1.0 w) := le_max_left _ _
  have hy2 : max 0.1 (min 1.0 w) ≤ 1 :=
    max_le (by norm_num) ((min_le_left _ _).trans (by norm_num))
  have hq : ((10 : ℚ) ^ 2) = 100 := by norm_num
  have s1 : ((10 : ℤ) : ℚ) ≤ max 0.1 (min 1.0 w) * 10 ^ 2 := by
    rw [hq]; push_cast; linarith
  have s2 : max 0.1 (min 1.0 w) * 10 ^ 2 ≤ ((100 : ℤ) : ℚ) := by
    rw [hq]; push_cast; linarith
  have h := roundTo_bounds 10 100 (max 0.1 (min 1.0 w)) 2 s1 s2
  constructor
  · calc (0.10 : ℚ) = ((10 : ℤ) : ℚ) / 10 ^ 2 := by norm_num
      _ ≤ _ := h.1
  · calc roundTo 2 (max 0.1 (min 1.0 w)) ≤ ((100 : ℤ) : ℚ) / 10 ^ 2 := h.2
      _ = 1.00 := by norm_num

lemma nutrient_draw_bounds (lo hi : ℤ) {u : ℚ} (h0 : 0 ≤ u) (h1 : u < 1)
    (hlh : (lo : ℚ) ≤ (hi : ℚ)) :
    (lo : ℚ) ≤ roundTo 0 (uniform lo hi u) ∧ roundTo 0 (uniform lo hi u) ≤ (hi : ℚ) := by
  have hm : (0 : ℚ) ≤ ((hi : ℚ) - lo) * u := mul_nonneg (by linarith) h0
  have hm2 : (0 : ℚ) ≤ ((hi : ℚ) - lo) * (1 - u) := mul_nonneg (by linarith) (by linarith)
  have hx1 : (lo : ℚ) ≤ uniform lo hi u := by unfold uniform; nlinarith
  have hx2 : uniform lo hi u ≤ (hi : ℚ) := by unfold uniform; nlinarith
  have h := roundTo_bounds lo hi (uniform lo hi u) 0
    (by rw [pow_zero, mul_one]; exact hx1) (by rw [pow_zero, mul_one]; exact hx2)
  simpa using h

lemma argmax_eq_one {a b c d e : ℚ} (h1 : a < b) (h2 : c ≤ b) (h3 : d ≤ b) (h4 : e ≤ b) :
    argmax [a, b, c, d, e] = 1 := by
  simp only [argmax, argmaxAux]
  split_ifs <;> first | rfl | (exfalso; linarith)

lemma argmax_eq_four {a b c d e : ℚ} (h1 : a < e) (h2 : b < e) (h3 : c < e) (h4 : d < e) :
    argmax [a, b, c, d, e] = 4 := by
  simp only [argmax, argmaxAux]
  split_ifs <;> first | rfl | (exfalso; linarith)

lemma noisyScores_reddish (g : ℕ → ℚ) :
    noisyScores reddishFeatures g =
      [ 229/153 + uniform (-0.2) 0.2 (g 0)
      , 35/9 + uniform (-0.2) 0.2 (g 1)
      , 461/336 + uniform (-0.2) 0.2 (g 2)
      , 1427/480 + uniform (-0.2) 0.2 (g 3)
      , 1558/765 + uniform (-0.2) 0.2 (g 4) ] := by
  norm_num [noisyScores, black_score, red_score, alluvial_score, laterite_score, sandy_score,
    reddishFeatures, solidFeatures, ImageFeatures.brightness, ImageFeatures.saturation,
    ImageFeatures.texture_variance, ImageFeatures.redness, ImageFeatures.greenness,
    abs_eq_max_neg, max_def]

lemma noisyScores_bright (g : ℕ → ℚ) :
    noisyScores brightSoilFeatures g =
      [ 2059/1683 + uniform (-0.2) 0.2 (g 0)
      , 4289/2196 + uniform (-0.2) 0.2 (g 1)
      , 40983/18788 + uniform (-0.2) 0.2 (g 2)
      , 10031/6710 + uniform (-0.2) 0.2 (g 3)
      , 22294/8415 + uniform (-0.2) 0.2 (g 4) ] := by
  norm_num [noisyScores, black_score, red_score, alluvial_score, laterite_score, sandy_score,
    brightSoilFeatures, solidFeatures, ImageFeatures.brightness, ImageFeatures.saturation,
    ImageFeatures.texture_variance, ImageFeatures.redness, ImageFeatures.greenness,
    abs_eq_max_neg, max_def]

lemma soil_index_reddish (g : ℕ → ℚ) (h : ∀ i, i < 5 → 0 ≤ g i ∧ g i ≤ 1) :
    soil_index reddishFeatures g = 1 := by
  obtain ⟨l0, u0⟩ := h 0 (by norm_num)
  obtain ⟨l1, u1⟩ := h 1 (by norm_num)
  obtain ⟨l2, u2⟩ := h 2 (by norm_num)
  obtain ⟨l3, u3⟩ := h 3 (by norm_num)
  obtain ⟨l4, u4⟩ := h 4 (by norm_num)
  rw [soil_index, noisyScores_reddish]
  apply argmax_eq_one <;> simp only [uniform] <;> linarith

lemma soil_index_bright (g : ℕ → ℚ) (h : ∀ i, i < 5 → 0 ≤ g i ∧ g i ≤ 1) :
    soil_index brightSoilFeatures g = 4 := by
  obtain ⟨l0, u0⟩ := h 0 (by norm_num)
  obtain ⟨l1, u1⟩ := h 1 (by norm_num)
  obtain ⟨l2, u2⟩ := h 2 (by norm_num)
  obtain ⟨l3, u3⟩ := h 3 (by norm_num)
  obtain ⟨l4, u4⟩ := h 4 (by norm_num)
  rw [soil_index, noisyScores_bright]
  apply argmax_eq_four <;> simp only [uniform] <;> linarith

lemma soil_profile_reddish (g : ℕ → ℚ) (h : ∀ i, i < 5 → 0 ≤ g i ∧ g i ≤ 1) :
    soil_profile reddishFeatures g = redSoilProfile := by
  rw [soil_profile, soil_index_reddish g h]
  rfl

lemma soil_profile_bright (g : ℕ → ℚ) (h : ∀ i, i < 5 → 0 ≤ g i ∧ g i ≤ 1) :
    soil_profile brightSoilFeatures g = sandyLoamProfile := by
  rw [soil_profile, soil_index_bright g h]
  rfl

lemma soil_margin_reddish_half (g : ℕ → ℚ) (h : ∀ i, i < 5 → g i = 1/2) :
    soil_margin reddishFeatures g = 1319/1440 := by
  have hns : noisyScores reddishFeatures g = [229/153, 35/9, 461/336, 1427/480, 1558/765] := by
    rw [noisyScores_reddish, h 0 (by norm_num), h 1 (by norm_num), h 2 (by norm_num),
      h 3 (by norm_num), h 4 (by norm_num)]
    norm_num [uniform]
  simp only [soil_margin, hns]
  norm_num [List.insertionSort, List.orderedInsert]

lemma noisyScores_congr (f : ImageFeatures) (g₁ g₂ : ℕ → ℚ)
    (h : ∀ i, i < 5 → g₁ i = g₂ i) : noisyScores f g₁ = noisyScores f g₂ := by
  simp only [noisyScores, h 0 (by norm_num), h 1 (by norm_num), h 2 (by norm_num),
    h 3 (by norm_num), h 4 (by norm_num)]

lemma classify_soil_congr (f : ImageFeatures) (g₁ g₂ : ℕ → ℚ)
    (h : ∀ i, i < 11 → g₁ i = g₂ i) : classify_soil f g₁ = classify_soil f g₂ := by
  have hns := noisyScores_congr f g₁ g₂ (fun i hi => h i (by omega))
  simp only [classify_soil, soil_profile, soil_index, soil_confidence, soil_margin, hns,
    h 5 (by norm_num), h 6 (by norm_num), h 7 (by norm_num), h 8 (by norm_num),
    h 9 (by norm_num), h 10 (by norm_num)]

lemma detectAux_congr (f : ImageFeatures) (g₁ g₂ : ℕ → ℚ) :
    ∀ (ts : List TriggerSpec) (pos : ℕ),
      (∀ i, i < pos + 2 * ts.length → g₁ i = g₂ i) →
      detectAux f g₁ ts pos = detectAux f g₂ ts pos := by
  intro ts
  induction ts with
  | nil => intro pos h; rfl
  | cons t ts ih =>
      intro pos h
      simp only [detectAux]
      by_cases hc : t.cond f = true
      · rw [if_pos hc, if_pos hc, h pos (by simp only [List.length_cons]; omega),
          h (pos + 1) (by simp only [List.length_cons]; omega),
          ih (pos + 2) (fun i hi => h i (by simp only [List.length_cons]; omega))]
      · rw [if_neg hc, if_neg hc]
        exact ih pos (fun i hi => h i (by simp only [List.length_cons]; omega))

lemma analyze_crop_health_congr (f : ImageFeatures) (g₁ g₂ : ℕ → ℚ)
    (h : ∀ i, i < 11 → g₁ i = g₂ i) :
    analyze_crop_health f g₁ = analyze_crop_health f g₂ := by
  have hd : detectAux f g₁ CROP_TRIGGERS 1 = detectAux f g₂ CROP_TRIGGERS 1 :=
    detectAux_congr f g₁ g₂ CROP_TRIGGERS 1 (fun i hi => h i (by
      simp only [CROP_TRIGGERS, List.length_cons, List.length_nil] at hi; omega))
  simp only [analyze_crop_health, crop_health_score, hd, h 0 (by norm_num)]

lemma detectAux_mem_name (f : ImageFeatures) (g : ℕ → ℚ) :
    ∀ (ts : List TriggerSpec) (pos : ℕ) (e : DiseaseEntry),
      e ∈ detectAux f g ts pos → ∃ t ∈ ts, t.cond f = true ∧ e.disease = t.name := by
  intro ts
  induction ts with
  | nil => intro pos e he; simp [detectAux] at he
  | cons t ts ih =>
      intro pos e he
      simp only [detectAux] at he
      by_cases hc : t.cond f = true
      · rw [if_pos hc] at he
        rcases List.mem_cons.mp he with h1 | h2
        · exact ⟨t, List.mem_cons_self t ts, hc, by rw [h1]⟩
        · obtain ⟨u, hu, hcu, hn⟩ := ih (pos + 2) e h2
          exact ⟨u, List.mem_cons_of_mem t hu, hcu, hn⟩
      · rw [if_neg hc] at he
        obtain ⟨u, hu, hcu, hn⟩ := ih pos e he
        exact ⟨u, List.mem_cons_of_mem t hu, hcu, hn⟩

lemma detectAux_head_mem (f : ImageFeatures) (g : ℕ → ℚ) (t : TriggerSpec)
    (ts : List TriggerSpec) (pos : ℕ) (h : t.cond f = true) :
    ∃ e ∈ detectAux f g (t :: ts) pos, e.disease = t.name := by
  simp only [detectAux, if_pos h]
  exact ⟨_, List.mem_cons_self _ _, rfl⟩

lemma ite_defaults_ne_nil (X L : List String) (hL : L ≠ []) :
    (if X.isEmpty then L else X) ≠ [] := by
  split_ifs with h
  · exact hL
  · intro hx
    rw [hx] at h
    simp at h

/-! Claim theorems. -/

/-- C2: for every ImageFeatures value and every draw stream, the soil
confidence lies in [0.60, 0.96] and the crop health score lies in
[0.10, 1.00] (both after rounding to 2 decimals). -/
theorem claim2_output_bounds (f : ImageFeatures) (g : ℕ → ℚ) :
    ((0.60 : ℚ) ≤ (classify_soil f g).confidence ∧ (classify_soil f g).confidence ≤ 0.96) ∧
    ((0.10 : ℚ) ≤ (analyze_crop_health f g).health_score
      ∧ (analyze_crop_health f g).health_score ≤ 1.00) := by
  constructor
  · rw [classify_soil_confidence_eq, soil_confidence]
    exact ⟨le_max_left _ _, max_le (by norm_num) (min_le_left _ _)⟩
  · rw [crop_health_score_eq]
    simp only [crop_health_score]
    exact roundTo2_clamp_bounds _

/-- C6: the deterministic seed is the value of the first 8 hex digits of the
content digest, hence a 32-bit unsigned integer; it is a pure function of the
byte content (and the digest function), so identical bytes give the identical
seed. -/
theorem claim6_seed_uint32 (md5hex : List ℕ → List (Fin 16)) (b : List ℕ) :
    deterministic_seed md5hex b < 2 ^ 32 := by
  have h1 : hexVal ((md5hex b).take 8) < 16 ^ ((md5hex b).take 8).length := hexVal_lt _
  have h2 : ((md5hex b).take 8).length ≤ 8 := by
    rw [List.length_take]; omega
  have h3 : (16 : ℕ) ^ ((md5hex b).take 8).length ≤ 16 ^ 8 :=
    Nat.pow_le_pow_right (by norm_num) h2
  calc deterministic_seed md5hex b < 16 ^ 8 := lt_of_lt_of_le h1 h3
    _ = 2 ^ 32 := by norm_num

/-- C10: for every ImageFeatures value and draw stream with unit draws in
[0, 1), the nutrient estimates are bounded: nitrogen in [120, 350],
phosphorus in [8, 45], potassium in [100, 400]. -/
theorem claim10_nutrient_bounds (f : ImageFeatures) (g : ℕ → ℚ)
    (h8 : 0 ≤ g 8 ∧ g 8 < 1) (h9 : 0 ≤ g 9 ∧ g 9 < 1) (h10 : 0 ≤ g 10 ∧ g 10 < 1) :
    ((120 : ℚ) ≤ (classify_soil f g).nutrients.nitrogen_kg_ha
      ∧ (classify_soil f g).nutrients.nitrogen_kg_ha ≤ 350) ∧
    ((8 : ℚ) ≤ (classify_soil f g).nutrients.phosphorus_kg_ha
      ∧ (classify_soil f g).nutrients.phosphorus_kg_ha ≤ 45) ∧
    ((100 : ℚ) ≤ (classify_soil f g).nutrients.potassium_kg_ha
      ∧ (classify_soil f g).nutrients.potassium_kg_ha ≤ 400) := by
  rw [classify_soil_nutrients_eq]
  have hn := nutrient_draw_bounds 120 350 h8.1 h8.2 (by norm_num)
  have hp := nutrient_draw_bounds 8 45 h9.1 h9.2 (by norm_num)
  have hk := nutrient_draw_bounds 100 400 h10.1 h10.2 (by norm_num)
  refine ⟨⟨?_, ?_⟩, ⟨?_, ?_⟩, ⟨?_, ?_⟩⟩ <;> simp only [] <;> exact_mod_cast
    (by first
      | exact hn.1 | exact hn.2 | exact hp.1 | exact hp.2 | exact hk.1 | exact hk.2)

/-- C1: both analyses are deterministic functions of the features and the
seeded draw stream: two runs that see the same finite draw prefix (at most
11 draws are ever consumed) produce bit-identical results. -/
theorem claim1_determinism (f : ImageFeatures) (g₁ g₂ : ℕ → ℚ)
    (h : ∀ i, i < 11 → g₁ i = g₂ i) :
    classify_soil f g₁ = classify_soil f g₂
      ∧ analyze_crop_health f g₁ = analyze_crop_health f g₂ :=
  ⟨classify_soil_congr f g₁ g₂ h, analyze_crop_health_congr f g₁ g₂ h⟩

/-- Witness for C1 at a concrete input: two streams that agree on the first
11 draws but differ beyond them. -/
theorem claim1_determinism_witness :
    classify_soil nearBlackFeatures (fun i => if i < 11 then 1/2 else 0)
      = classify_soil nearBlackFeatures (fun _ => 1/2)
      ∧ analyze_crop_health nearBlackFeatures (fun i => if i < 11 then 1/2 else 0)
        = analyze_crop_health nearBlackFeatures (fun _ => 1/2) :=
  claim1_determinism nearBlackFeatures _ _ (fun i hi => by simp [hi])

/-- C3 counterexample: the claim that the soil recommendations list is
always non-empty is false — on the reddish image with this draw stream
(Red Soil, pH 6.0, organic carbon 0.55, N 235, P 27, drainage moderate)
no advisory condition fires and the list is empty. -/
theorem claim3_counterexample :
    (classify_soil reddishFeatures claim3Stream).recommendations = [] := by
  have hb : ∀ i, i < 5 → 0 ≤ claim3Stream i ∧ claim3Stream i ≤ 1 := by
    intro i hi
    have h5 : i ≠ 6 := by omega
    have h6 : i ≠ 7 := by omega
    simp [claim3Stream, h5, h6]
    norm_num
  have hprof : soil_profile reddishFeatures claim3Stream = redSoilProfile :=
    soil_profile_reddish claim3Stream hb
  rw [classify_soil_recommendations_eq, hprof]
  have hg6 : claim3Stream 6 = 1/3 := rfl
  have hg7 : claim3Stream 7 = 5/6 := rfl
  have hg8 : claim3Stream 8 = 1/2 := rfl
  have hg9 : claim3Stream 9 = 1/2 := rfl
  rw [hg6, hg7, hg8, hg9]
  have hph : roundTo 1 (uniform redSoilProfile.ph_lo redSoilProfile.ph_hi (1/3)) = 6 := by
    norm_num [redSoilProfile, uniform, roundTo, round_eq]
  have hoc : roundTo 2 (uniform redSoilProfile.oc_lo redSoilProfile.oc_hi (5/6)) = 0.55 := by
    norm_num [redSoilProfile, uniform, roundTo, round_eq]
  have hn : roundTo 0 (uniform 120 350 (1/2)) = 235 := by
    norm_num [uniform, roundTo, round_eq]
  have hp : roundTo 0 (uniform 8 45 (1/2)) = 27 := by
    norm_num [uniform, roundTo, round_eq]
  have hdr : redSoilProfile.drainage = "moderate" := rfl
  rw [hph, hoc, hn, hp, hdr]
  have hs1 : (("moderate" : String) == "poor") = false := rfl
  have hs2 : (("moderate" : String) == "excessive") = false := rfl
  norm_num [soil_recommendations, hs1, hs2]

/-- C3 amended: the crop recommendations list is never empty (the default
maintenance lines are appended when nothing else triggered); the soil
recommendations list, by contrast, can be empty — `classify_soil` has no
unconditional advisory. -/
theorem claim3_amended_crop_nonempty (f : ImageFeatures) (g : ℕ → ℚ) :
    (analyze_crop_health f g).recommendations ≠ [] := by
  rw [crop_recommendations_eq]
  unfold crop_recommendations
  exact ite_defaults_ne_nil _ _ (by simp)

/-- C4 counterexample: the draw at stream position 5 (immediately after the
five score-noise draws) feeds the confidence perturbation, not the pH
estimate — two streams differing only at position 5 give the same pH but
different confidences, refuting the claimed order (pH and nutrients before
the confidence perturbation). -/
theorem claim4_counterexample :
    claim4StreamA 5 ≠ claim4StreamB 5 ∧
    (∀ i, i < 11 → i ≠ 5 → claim4StreamA i = claim4StreamB i) ∧
    (classify_soil reddishFeatures claim4StreamA).estimated_ph
      = (classify_soil reddishFeatures claim4StreamB).estimated_ph ∧
    (classify_soil reddishFeatures claim4StreamA).confidence
      ≠ (classify_soil reddishFeatures claim4StreamB).confidence := by
  have hbA : ∀ i, i < 5 → 0 ≤ claim4StreamA i ∧ claim4StreamA i ≤ 1 := by
    intro i hi
    have h5 : i ≠ 5 := by omega
    simp [claim4StreamA, h5]
    norm_num
  have hbB : ∀ i, i < 5 → 0 ≤ claim4StreamB i ∧ claim4StreamB i ≤ 1 := by
    intro i hi
    have h5 : i ≠ 5 := by omega
    simp [claim4StreamB, h5]
    norm_num
  have hhA : ∀ i, i < 5 → claim4StreamA i = 1/2 := by
    intro i hi
    have h5 : i ≠ 5 := by omega
    simp [claim4StreamA, h5]
  have hhB : ∀ i, i < 5 → claim4StreamB i = 1/2 := by
    intro i hi
    have h5 : i ≠ 5 := by omega
    simp [claim4StreamB, h5]
  refine ⟨by norm_num [claim4StreamA, claim4StreamB], ?_, ?_, ?_⟩
  · intro i hi hne
    simp [claim4StreamA, claim4StreamB, hne]
  · rw [classify_soil_ph_eq, classify_soil_ph_eq,
      soil_profile_reddish claim4StreamA hbA, soil_profile_reddish claim4StreamB hbB]
    have h6A : claim4StreamA 6 = 1/2 := rfl
    have h6B : claim4StreamB 6 = 1/2 := rfl
    rw [h6A, h6B]
  · rw [classify_soil_confidence_eq, classify_soil_confidence_eq]
    simp only [soil_confidence, soil_margin_reddish_half claim4StreamA hhA,
      soil_margin_reddish_half claim4StreamB hhB]
    have h5A : claim4StreamA 5 = 0 := rfl
    have h5B : claim4StreamB 5 = 1/4 := rfl
    rw [h5A, h5B]
    norm_num [uniform, roundTo, round_eq, max_def, min_def]

/-- C4 amended: the seeded draws are consumed in source order — the five
per-candidate score-noise draws (positions 0-4) first, then the confidence
perturbation (position 5), then the pH estimate (position 6), the
organic-carbon estimate (position 7), and the nutrient estimates
(positions 8-10): each output field depends only on the corresponding
draw positions, and the whole result on the first 11 draws. -/
theorem claim4_amended_draw_order (f : ImageFeatures) (g₁ g₂ : ℕ → ℚ) :
    ((∀ i, i < 5 → g₁ i = g₂ i) →
        (classify_soil f g₁).soil_type = (classify_soil f g₂).soil_type) ∧
    ((∀ i, i < 6 → g₁ i = g₂ i) →
        (classify_soil f g₁).confidence = (classify_soil f g₂).confidence) ∧
    ((∀ i, i < 5 → g₁ i = g₂ i) → g₁ 6 = g₂ 6 →
        (classify_soil f g₁).estimated_ph = (classify_soil f g₂).estimated_ph) ∧
    ((∀ i, i < 5 → g₁ i = g₂ i) → g₁ 7 = g₂ 7 →
        (classify_soil f g₁).organic_carbon_pct = (classify_soil f g₂).organic_carbon_pct) ∧
    ((∀ i, i < 11 → g₁ i = g₂ i) → classify_soil f g₁ = classify_soil f g₂) := by
  refine ⟨?_, ?_, ?_, ?_, ?_⟩
  · intro h
    rw [classify_soil_soil_type_eq, classify_soil_soil_type_eq]
    simp only [soil_profile, soil_index, noisyScores_congr f g₁ g₂ h]
  · intro h
    rw [classify_soil_confidence_eq, classify_soil_confidence_eq]
    simp only [soil_confidence, soil_margin,
      noisyScores_congr f g₁ g₂ (fun i hi => h i (by omega)), h 5 (by norm_num)]
  · intro h h6
    rw [classify_soil_ph_eq, classify_soil_ph_eq]
    simp only [soil_profile, soil_index, noisyScores_congr f g₁ g₂ h, h6]
  · intro h h7
    rw [classify_soil_oc_eq, classify_soil_oc_eq]
    simp only [soil_profile, soil_index, noisyScores_congr f g₁ g₂ h, h7]
  · exact classify_soil_congr f g₁ g₂

/-- Witness for C4 amended at a concrete input. -/
theorem claim4_amended_draw_order_witness :
    classify_soil reddishFeatures (fun i => if i < 11 then 1/3 else 7)
      = classify_soil reddishFeatures (fun _ => 1/3) :=
  (claim4_amended_draw_order reddishFeatures _ _).2.2.2.2 (fun i hi => by simp [hi])

/-- C5: the texture label depends only on the texture variance, with the
fixed thresholds of the source, independent of the seed. -/
theorem claim5_texture_label (f : ImageFeatures) (g : ℕ → ℚ) :
    ((classify_soil f g).texture = "clayey" ↔ 50 < f.texture_variance) ∧
    ((classify_soil f g).texture = "loamy"
      ↔ 30 < f.texture_variance ∧ f.texture_variance ≤ 50) ∧
    ((classify_soil f g).texture = "sandy" ↔ f.texture_variance ≤ 30) := by
  rw [classify_soil_texture_eq, textureOf]
  rcases lt_or_le 50 f.texture_variance with h1 | h1
  · rw [if_pos h1]
    exact ⟨⟨fun _ => h1, fun _ => rfl⟩,
      ⟨fun hs => absurd hs (by decide), fun hc => absurd h1 (not_lt.mpr hc.2)⟩,
      ⟨fun hs => absurd hs (by decide),
        fun hc => absurd h1 (not_lt.mpr (hc.trans (by norm_num)))⟩⟩
  · rw [if_neg (not_lt.mpr h1)]
    rcases lt_or_le 30 f.texture_variance with h2 | h2
    · rw [if_pos h2]
      exact ⟨⟨fun hs => absurd hs (by decide), fun hcc => absurd hcc (not_lt.mpr h1)⟩,
        ⟨fun _ => ⟨h2, h1⟩, fun _ => rfl⟩,
        ⟨fun hs => absurd hs (by decide), fun hc => absurd h2 (not_lt.mpr hc)⟩⟩
    · rw [if_neg (not_lt.mpr h2)]
      exact ⟨⟨fun hs => absurd hs (by decide),
          fun hcc => absurd hcc (not_lt.mpr (h2.trans (by norm_num)))⟩,
        ⟨fun hs => absurd hs (by decide), fun hc => absurd hc.1 (not_lt.mpr h2)⟩,
        ⟨fun _ => h2, fun _ => rfl⟩⟩

/-- C7: for the near-white solid image RGB (230, 230, 225) and any draw
stream, the detected-disease list has exactly one entry, Powdery Mildew —
no other trigger condition holds for these features. -/
theorem claim7_near_white_mildew (g : ℕ → ℚ) :
    ((analyze_crop_health nearWhiteFeatures g).detected_diseases).map (fun d => d.disease)
      = ["Powdery Mildew"] := by
  rw [crop_detected_eq]
  norm_num [detectAux, CROP_TRIGGERS, blightTrigger, mildewTrigger, rustTrigger, wiltTrigger,
    aphidTrigger, nearWhiteFeatures, solidFeatures, ImageFeatures.brightness,
    ImageFeatures.saturation, ImageFeatures.texture_variance, ImageFeatures.redness,
    ImageFeatures.greenness, max_def, min_def]

/-- C8: for the near-black, reddish and near-white solid test images and any
per-candidate noise draws in range, the three soil classifications are not
all the same type (the reddish image is always Red Soil, the near-white one
always Sandy Loam). -/
theorem claim8_diversity (gA gB gC : ℕ → ℚ)
    (hA : ∀ i, i < 5 → 0 ≤ gA i ∧ gA i ≤ 1)
    (hB : ∀ i, i < 5 → 0 ≤ gB i ∧ gB i ≤ 1)
    (hC : ∀ i, i < 5 → 0 ≤ gC i ∧ gC i ≤ 1) :
    ¬ ((classify_soil nearBlackFeatures gA).soil_type
         = (classify_soil reddishFeatures gB).soil_type
       ∧ (classify_soil reddishFeatures gB).soil_type
         = (classify_soil brightSoilFeatures gC).soil_type) := by
  rintro ⟨h1, h2⟩
  have hb : (classify_soil reddishFeatures gB).soil_type = "Red Soil (Alfisol)" := by
    rw [classify_soil_soil_type_eq, soil_profile_reddish gB hB]
    rfl
  have hc : (classify_soil brightSoilFeatures gC).soil_type = "Sandy Loam" := by
    rw [classify_soil_soil_type_eq, soil_profile_bright gC hC]
    rfl
  rw [hb, hc] at h2
  exact absurd h2 (by decide)

/-- Witness for C8 at concrete draw streams. -/
theorem claim8_diversity_witness :
    ¬ ((classify_soil nearBlackFeatures (fun _ => 1/2)).soil_type
         = (classify_soil reddishFeatures (fun _ => 1/2)).soil_type
       ∧ (classify_soil reddishFeatures (fun _ => 1/2)).soil_type
         = (classify_soil brightSoilFeatures (fun _ => 1/2)).soil_type) :=
  claim8_diversity _ _ _ (fun _ _ => ⟨by norm_num, by norm_num⟩)
    (fun _ _ => ⟨by norm_num, by norm_num⟩) (fun _ _ => ⟨by norm_num, by norm_num⟩)

/-- C9: whenever a Rust entry is emitted and the brightness is below 160,
a Leaf Blight entry is emitted as well — the Rust thresholds are strictly
stronger than the Blight thresholds under that brightness bound. -/
theorem claim9_rust_implies_blight (f : ImageFeatures) (g : ℕ → ℚ)
    (hb : f.brightness < 160)
    (hr : ∃ e ∈ (analyze_crop_health f g).detected_diseases, e.disease = "Rust") :
    ∃ e ∈ (analyze_crop_health f g).detected_diseases, e.disease = "Leaf Blight" := by
  rw [crop_detected_eq] at hr ⊢
  obtain ⟨e, he, hn⟩ := hr
  obtain ⟨t, ht, hcond, hnm⟩ := detectAux_mem_name f g CROP_TRIGGERS 1 e he
  rw [hnm] at hn
  simp only [CROP_TRIGGERS, List.mem_cons, List.not_mem_nil, or_false] at ht
  rcases ht with rfl | rfl | rfl | rfl | rfl
  · exact absurd hn (by decide)
  · exact absurd hn (by decide)
  · obtain ⟨hred, hgr, hbr1, hbr2⟩ := of_decide_eq_true hcond
    have hcb : blightTrigger.cond f = true := by
      exact decide_eq_true ⟨by linarith, by linarith, hb⟩
    simp only [CROP_TRIGGERS]
    exact detectAux_head_mem f g blightTrigger
      [mildewTrigger, rustTrigger, wiltTrigger, aphidTrigger] 1 hcb
  · exact absurd hn (by decide)
  · exact absurd hn (by decide)

/-- Witness for C9 at a concrete input: a brownish-red solid image on which
both Rust and Leaf Blight fire. -/
theorem claim9_rust_implies_blight_witness :
    ∃ e ∈ (analyze_crop_health (solidFeatures 170 40 150) (fun _ => 1/2)).detected_diseases,
      e.disease = "Leaf Blight" :=
  claim9_rust_implies_blight (solidFeatures 170 40 150) (fun _ => 1/2)
    (by norm_num [solidFeatures, ImageFeatures.brightness])
    (by
      rw [crop_detected_eq]
      have hmap : ((detectAux (solidFeatures 170 40 150) (fun _ => 1/2)
          CROP_TRIGGERS 1).map (fun d => d.disease)) = ["Leaf Blight", "Rust"] := by
        norm_num [detectAux, CROP_TRIGGERS, blightTrigger, mildewTrigger, rustTrigger,
          wiltTrigger, aphidTrigger, solidFeatures, ImageFeatures.brightness,
          ImageFeatures.saturation, ImageFeatures.texture_variance, ImageFeatures.redness,
          ImageFeatures.greenness, max_def, min_def]
      exact List.mem_map.mp (by rw [hmap]; simp))

/-- Witness for C10 at a concrete input. -/
theorem claim10_nutrient_bounds_witness :
    ((120 : ℚ) ≤ (classify_soil reddishFeatures (fun _ => 1/2)).nutrients.nitrogen_kg_ha
      ∧ (classify_soil reddishFeatures (fun _ => 1/2)).nutrients.nitrogen_kg_ha ≤ 350) ∧
    ((8 : ℚ) ≤ (classify_soil reddishFeatures (fun _ => 1/2)).nutrients.phosphorus_kg_ha
      ∧ (classify_soil reddishFeatures (fun _ => 1/2)).nutrients.phosphorus_kg_ha ≤ 45) ∧
    ((100 : ℚ) ≤ (classify_soil reddishFeatures (fun _ => 1/2)).nutrients.potassium_kg_ha
      ∧ (classify_soil reddishFeatures (fun _ => 1/2)).nutrients.potassium_kg_ha ≤ 400) :=
  claim10_nutrient_bounds reddishFeatures (fun _ => 1/2)
    ⟨by norm_num, by norm_num⟩ ⟨by norm_num, by norm_num⟩ ⟨by norm_num, by norm_num⟩
